import Mathlib

/-!
Shallow embedding of the rate-limiting middleware of
`src/backend/src/middleware` (the `createRateLimiter` /
`createEmailRateLimiter` middleware and their periodic cleanup).

Times are `Date.now()` millisecond timestamps, modelled as `Nat`.
Counters are JavaScript numbers used as integers, modelled as `Int`.
The two module-level stores (`store` and `emailStore`) are plain
JavaScript objects mapping a string key to `{ count, resetTime }`;
they are modelled as association lists.
-/

/-- One entry of a `RateLimitStore`: `{ count: number; resetTime: number }`. -/
structure WindowRecord where
  count : Int
  resetTime : Nat
deriving Repr, DecidableEq

/-- A `RateLimitStore`: a string-keyed dictionary of window records. -/
abbrev RLStore := List (String × WindowRecord)

/-- Dictionary read `store[key]`. -/
def lookupKey : RLStore → String → Option WindowRecord
  | [], _ => none
  | (k, r) :: rest, key => if k = key then some r else lookupKey rest key

/-- Dictionary write `store[key] = r` (replaces an existing binding). -/
def setKey : RLStore → String → WindowRecord → RLStore
  | [], key, r => [(key, r)]
  | (k, r0) :: rest, key, r =>
    if k = key then (key, r) :: rest else (k, r0) :: setKey rest key r

/-- The initialize-or-reuse step shared by both middlewares:
`if (!store[key] || store[key].resetTime < now) store[key] = { count: 0, resetTime: now + windowMs }`,
followed by `const record = store[key]`. Returns the updated store and the record. -/
def getOrInit (s : RLStore) (key : String) (now windowMs : Nat) : RLStore × WindowRecord :=
  match lookupKey s key with
  | some r =>
    if r.resetTime < now then
      (setKey s key ⟨0, now + windowMs⟩, ⟨0, now + windowMs⟩)
    else (s, r)
  | none => (setKey s key ⟨0, now + windowMs⟩, ⟨0, now + windowMs⟩)

/-- `Math.ceil(x / d)` on integers, for a positive divisor `d`. -/
def jsCeilDiv (x : Int) (d : Nat) : Int := -(Int.fdiv (-x) d)

/-- JavaScript `a || b` on a possibly-undefined string `a`
(`undefined` and the empty string are falsy). -/
def jsOrStr (a : Option String) (b : String) : String :=
  match a with
  | some sa => if sa = "" then b else sa
  | none => b

/-- `const key = req.ip || req.socket.remoteAddress || 'unknown'`. -/
def ipKey (reqIp remoteAddress : Option String) : String :=
  jsOrStr reqIp (jsOrStr remoteAddress "unknown")

/-- `RateLimitOptions` (the `message` string plays no role in the control flow). -/
structure RateLimitOptions where
  windowMs : Nat
  maxRequests : Nat
  skipSuccessfulRequests : Bool
deriving Repr, DecidableEq

/-- The externally visible outcome of one middleware invocation: whether
`next()` was called, the short-circuit status code, and the headers it set.
A `none` header field means the middleware did not set that header. -/
structure EvalResult where
  allowed : Bool
  status : Option Nat
  retryAfter : Option Int
  limitHeader : Option Nat
  remainingHeader : Option Int
  resetHeader : Option Nat
deriving Repr, DecidableEq

/-- One invocation of the middleware returned by `createRateLimiter`,
for a request with limiting key `key` arriving at time `now`. -/
def rateLimiterRequest (opts : RateLimitOptions) (s : RLStore) (key : String) (now : Nat) :
    RLStore × EvalResult :=
  let init := getOrInit s key now opts.windowMs
  let record := init.2
  if record.count ≥ (opts.maxRequests : Int) then
    (init.1,
     { allowed := false, status := some 429,
       retryAfter := some (jsCeilDiv ((record.resetTime : Int) - (now : Int)) 1000),
       limitHeader := some opts.maxRequests, remainingHeader := some 0,
       resetHeader := some record.resetTime })
  else
    (setKey init.1 key ⟨record.count + 1, record.resetTime⟩,
     { allowed := true, status := none, retryAfter := none,
       limitHeader := some opts.maxRequests,
       remainingHeader := some (max 0 ((opts.maxRequests : Int) - (record.count + 1))),
       resetHeader := some record.resetTime })

/-- The `res.on('finish', ...)` hook registered when `skipSuccessfulRequests`
is set: on a response with status `< 400` the charge for `key` is refunded,
floored at zero. -/
def finishHook (opts : RateLimitOptions) (s : RLStore) (key : String) (statusCode : Nat) :
    RLStore :=
  if opts.skipSuccessfulRequests then
    if statusCode < 400 then
      match lookupKey s key with
      | some r => setKey s key ⟨max 0 (r.count - 1), r.resetTime⟩
      | none => s
    else s
  else s

/-- A sequence of requests for a fixed key through one `createRateLimiter`
middleware, at the given arrival times; returns the final store and the
per-request results in arrival order. -/
def runIpRequests (opts : RateLimitOptions) (key : String) :
    RLStore → List Nat → RLStore × List EvalResult
  | s, [] => (s, [])
  | s, t :: rest =>
    let step := rateLimiterRequest opts s key t
    let restRun := runIpRequests opts key step.1 rest
    (restRun.1, step.2 :: restRun.2)

/-- The periodic cleanup body (both `setInterval` callbacks):
`Object.keys(st).forEach((key) => { if (st[key].resetTime < now) delete st[key]; })`. -/
def sweepExpired (s : RLStore) (now : Nat) : RLStore :=
  s.filter (fun kv => !(decide (kv.2.resetTime < now)))

/-- `EmailRateLimitOptions` (again the `message` string plays no role). -/
structure EmailRateLimitOptions where
  windowMs : Nat
  maxAttempts : Nat
deriving Repr, DecidableEq

/-- `email.toLowerCase()`, character by character. -/
def jsToLowerCase (s : String) : String := ⟨s.data.map Char.toLower⟩

/-- `const key = `email:${email.toLowerCase()}``. -/
def emailKey (email : String) : String := "email:" ++ jsToLowerCase email

/-- The result of a bare pass-through: `next()` is called and nothing else
happens (no header is set, no status is sent). -/
def nextOnly : EvalResult :=
  { allowed := true, status := none, retryAfter := none,
    limitHeader := none, remainingHeader := none, resetHeader := none }

/-- One invocation of the middleware returned by `createEmailRateLimiter`,
up to (and not including) the wrapped handler: bypass when `req.body.email`
is falsy, otherwise deny at the ceiling or call `next()`. The `res.json`
wrapper it installs on the allowed path is `emailOutcomeObserve` below. -/
def emailRateLimiterRequest (opts : EmailRateLimitOptions) (s : RLStore)
    (emailField : Option String) (now : Nat) : RLStore × EvalResult :=
  match emailField with
  | none => (s, nextOnly)
  | some email =>
    if email = "" then (s, nextOnly)
    else
      let init := getOrInit s (emailKey email) now opts.windowMs
      let record := init.2
      if record.count ≥ (opts.maxAttempts : Int) then
        (init.1,
         { allowed := false, status := some 429,
           retryAfter := some (jsCeilDiv ((record.resetTime : Int) - (now : Int)) 1000),
           limitHeader := none, remainingHeader := none, resetHeader := none })
      else
        (init.1,
         { allowed := true, status := none, retryAfter := none,
           limitHeader := none, remainingHeader := none, resetHeader := none })

/-- The `res.json` wrapper installed by `createEmailRateLimiter` on the
allowed path, applied when the wrapped handler responds: increment on an
authentication failure (`!body.success` and status 401 or 400), reset to
zero on success with status `< 400`, otherwise leave the record alone. -/
def emailOutcomeObserve (s : RLStore) (key : String) (success : Bool) (statusCode : Nat) :
    RLStore :=
  match lookupKey s key with
  | none => s
  | some r =>
    if success = false ∧ (statusCode = 401 ∨ statusCode = 400) then
      setKey s key ⟨r.count + 1, r.resetTime⟩
    else if success = true ∧ statusCode < 400 then
      setKey s key ⟨0, r.resetTime⟩
    else s

/-- A whole guarded request through `createEmailRateLimiter`: the middleware
runs first; when it calls `next()` with an email present, the wrapped handler
responds with (`success`, `statusCode`) through the installed `res.json`
wrapper. When the request is denied the handler never runs. -/
def emailGuardedRequest (opts : EmailRateLimitOptions) (s : RLStore)
    (emailField : Option String) (now : Nat) (success : Bool) (statusCode : Nat) :
    RLStore × EvalResult :=
  let step := emailRateLimiterRequest opts s emailField now
  match emailField with
  | none => step
  | some email =>
    if email = "" then step
    else if step.2.allowed then
      (emailOutcomeObserve step.1 (emailKey email) success statusCode, step.2)
    else step

/-- A sequence of guarded requests for a fixed email through one
`createEmailRateLimiter` middleware; each triple is the arrival time and
the handler outcome (`success`, `statusCode`). Returns the final store and
the per-request `allowed` flags in arrival order. -/
def runEmailAttempts (opts : EmailRateLimitOptions) (email : String) :
    RLStore → List (Nat × Bool × Nat) → RLStore × List Bool
  | s, [] => (s, [])
  | s, (t, success, code) :: rest =>
    let step := emailGuardedRequest opts s (some email) t success code
    let restRun := runEmailAttempts opts email step.1 rest
    (restRun.1, step.2.allowed :: restRun.2)

/-- The module state of `rateLimiter.ts`: the two module-level stores.
`store` is shared by every middleware `createRateLimiter` returns;
`emailStore` is shared by every middleware `createEmailRateLimiter` returns. -/
structure ModuleState where
  store : RLStore
  emailStore : RLStore
deriving Repr, DecidableEq

/-- A request through a middleware made by `createRateLimiter`, acting on the
module state: it reads and writes the shared `store`. -/
def applyIpPolicy (opts : RateLimitOptions) (m : ModuleState) (key : String) (now : Nat) :
    ModuleState × EvalResult :=
  let step := rateLimiterRequest opts m.store key now
  ({ m with store := step.1 }, step.2)

/-- A guarded request through a middleware made by `createEmailRateLimiter`,
acting on the module state: it reads and writes the shared `emailStore`. -/
def applyEmailPolicy (opts : EmailRateLimitOptions) (m : ModuleState)
    (emailField : Option String) (now : Nat) (success : Bool) (statusCode : Nat) :
    ModuleState × EvalResult :=
  let step := emailGuardedRequest opts m.emailStore emailField now success statusCode
  ({ m with emailStore := step.1 }, step.2)

/-- `rateLimiter`: 100 requests per 15 minutes. -/
def rateLimiterOpts : RateLimitOptions :=
  { windowMs := 15 * 60 * 1000, maxRequests := 100, skipSuccessfulRequests := false }

/-- `strictRateLimiter`: 5 requests per 15 minutes, skipping successful ones. -/
def strictRateLimiterOpts : RateLimitOptions :=
  { windowMs := 15 * 60 * 1000, maxRequests := 5, skipSuccessfulRequests := true }

/-- `apiRateLimiter`: 10 requests per minute. -/
def apiRateLimiterOpts : RateLimitOptions :=
  { windowMs := 60 * 1000, maxRequests := 10, skipSuccessfulRequests := false }

/-- `loginRateLimiter`: 5 failed attempts per 15 minutes per email. -/
def loginRateLimiterOpts : EmailRateLimitOptions :=
  { windowMs := 15 * 60 * 1000, maxAttempts := 5 }

/-- The store-wide counter invariant: every record has `count >= 0`. -/
def StoreNonneg (s : RLStore) : Prop := ∀ kv ∈ s, 0 ≤ kv.2.count

instance (s : RLStore) : Decidable (StoreNonneg s) := by
  unfold StoreNonneg; infer_instance

/-! ### Basic store lemmas -/

theorem lookup_setKey_self (s : RLStore) (key : String) (r : WindowRecord) :
    lookupKey (setKey s key r) key = some r := by
  induction s with
  | nil => simp [setKey, lookupKey]
  | cons kv rest ih =>
    obtain ⟨k, r0⟩ := kv
    by_cases h : k = key <;> simp [setKey, lookupKey, h, ih]

theorem lookup_setKey_ne (s : RLStore) (key k : String) (r : WindowRecord) (h : k ≠ key) :
    lookupKey (setKey s key r) k = lookupKey s k := by
  induction s with
  | nil => simp [setKey, lookupKey, Ne.symm h]
  | cons kv rest ih =>
    obtain ⟨k0, r0⟩ := kv
    by_cases h0 : k0 = key
    · subst h0
      simp [setKey, lookupKey, Ne.symm h]
    · simp [setKey, lookupKey, h0, ih]

theorem mem_setKey (s : RLStore) (key : String) (r : WindowRecord)
    (kv : String × WindowRecord) (h : kv ∈ setKey s key r) :
    kv = (key, r) ∨ kv ∈ s := by
  induction s with
  | nil => simpa [setKey] using h
  | cons kv0 rest ih =>
    obtain ⟨k0, r0⟩ := kv0
    by_cases h0 : k0 = key
    · simp only [setKey, if_pos h0] at h
      rcases List.mem_cons.1 h with h1 | h1
      · exact Or.inl h1
      · exact Or.inr (List.mem_cons_of_mem _ h1)
    · simp only [setKey, if_neg h0] at h
      rcases List.mem_cons.1 h with h1 | h1
      · exact Or.inr (h1 ▸ List.mem_cons_self _ _)
      · rcases ih h1 with h2 | h2
        · exact Or.inl h2
        · exact Or.inr (List.mem_cons_of_mem _ h2)

theorem getOrInit_lookup_none (s : RLStore) (key : String) (now windowMs : Nat)
    (h : lookupKey s key = none) :
    getOrInit s key now windowMs =
      (setKey s key ⟨0, now + windowMs⟩, ⟨0, now + windowMs⟩) := by
  simp [getOrInit, h]

theorem getOrInit_active (s : RLStore) (key : String) (now windowMs : Nat)
    (r : WindowRecord) (h : lookupKey s key = some r) (hactive : now ≤ r.resetTime) :
    getOrInit s key now windowMs = (s, r) := by
  simp [getOrInit, h, Nat.not_lt.2 hactive]

theorem getOrInit_expired (s : RLStore) (key : String) (now windowMs : Nat)
    (r : WindowRecord) (h : lookupKey s key = some r) (hexp : r.resetTime < now) :
    getOrInit s key now windowMs =
      (setKey s key ⟨0, now + windowMs⟩, ⟨0, now + windowMs⟩) := by
  simp [getOrInit, h, hexp]

theorem getOrInit_resetTime_ge (s : RLStore) (key : String) (now windowMs : Nat) :
    now ≤ (getOrInit s key now windowMs).2.resetTime := by
  unfold getOrInit
  cases h : lookupKey s key with
  | none => simp
  | some r =>
    by_cases hr : r.resetTime < now
    · simp [hr]
    · simpa [hr] using Nat.not_lt.1 hr

theorem getOrInit_lookup_self (s : RLStore) (key : String) (now windowMs : Nat) :
    lookupKey (getOrInit s key now windowMs).1 key = some (getOrInit s key now windowMs).2 := by
  unfold getOrInit
  cases h : lookupKey s key with
  | none => simpa using lookup_setKey_self s key _
  | some r =>
    by_cases hr : r.resetTime < now
    · simpa [hr] using lookup_setKey_self s key _
    · simp [hr, h]

theorem jsCeilDiv_pos (x : Int) (h : 0 < x) : 0 < jsCeilDiv x 1000 := by
  unfold jsCeilDiv
  rw [Int.fdiv_eq_ediv _ (by norm_num)]
  omega

/-! ### Step lemmas for the IP-keyed limiter -/

theorem rateLimiterRequest_allowed (opts : RateLimitOptions) (s : RLStore) (key : String)
    (now : Nat) (c : Int) (rt : Nat)
    (hs : lookupKey s key = some ⟨c, rt⟩) (hactive : now ≤ rt)
    (hc : c < (opts.maxRequests : Int)) :
    rateLimiterRequest opts s key now =
      (setKey s key ⟨c + 1, rt⟩,
       ⟨true, none, none, some opts.maxRequests,
        some (max 0 ((opts.maxRequests : Int) - (c + 1))), some rt⟩) := by
  simp [rateLimiterRequest, getOrInit_active s key now opts.windowMs ⟨c, rt⟩ hs hactive,
    not_le.2 hc]

theorem rateLimiterRequest_denied (opts : RateLimitOptions) (s : RLStore) (key : String)
    (now : Nat) (c : Int) (rt : Nat)
    (hs : lookupKey s key = some ⟨c, rt⟩) (hactive : now ≤ rt)
    (hc : (opts.maxRequests : Int) ≤ c) :
    rateLimiterRequest opts s key now =
      (s, ⟨false, some 429, some (jsCeilDiv ((rt : Int) - (now : Int)) 1000),
           some opts.maxRequests, some 0, some rt⟩) := by
  simp [rateLimiterRequest, getOrInit_active s key now opts.windowMs ⟨c, rt⟩ hs hactive, hc]

/-- Invariant-style description of a run of requests for one key while its
window is active: the trace of allow/deny flags, the stored count after every
prefix, and the shape of every denial. -/
theorem runIp_loop (opts : RateLimitOptions) (key : String) (rt : Nat) (ts : List Nat) :
    ∀ (s : RLStore) (c : Nat),
      lookupKey s key = some ⟨(c : Int), rt⟩ →
      c ≤ opts.maxRequests →
      (∀ t ∈ ts, t < rt) →
      ((runIpRequests opts key s ts).2.map (fun r => r.allowed)
          = (List.range ts.length).map (fun i => decide (c + i < opts.maxRequests)))
      ∧ (∀ k, k ≤ ts.length →
          lookupKey (runIpRequests opts key s (ts.take k)).1 key
            = some ⟨((min (c + k) opts.maxRequests : Nat) : Int), rt⟩)
      ∧ (∀ r ∈ (runIpRequests opts key s ts).2,
          (r.allowed = false → r.status = some 429 ∧
            ∃ ra, r.retryAfter = some ra ∧ 0 < ra)
          ∧ (r.allowed = true → r.status = none)) := by
  induction ts with
  | nil =>
    intro s c hs hc _
    refine ⟨rfl, ?_, by simp [runIpRequests]⟩
    intro k hk
    have hk0 : k = 0 := Nat.le_zero.1 hk
    subst hk0
    simpa [runIpRequests, Nat.min_eq_left hc] using hs
  | cons t rest ih =>
    intro s c hs hc hts
    have htrt : t < rt := hts t (List.mem_cons_self _ _)
    have hrest : ∀ u ∈ rest, u < rt := fun u hu => hts u (List.mem_cons_of_mem _ hu)
    by_cases hcN : c < opts.maxRequests
    · -- this request is allowed and charges the window
      have hstep := rateLimiterRequest_allowed opts s key t (c : Int) rt hs
        (Nat.le_of_lt htrt) (by exact_mod_cast hcN)
      have hs' : lookupKey (setKey s key ⟨(c : Int) + 1, rt⟩) key
          = some ⟨((c + 1 : Nat) : Int), rt⟩ := by
        rw [lookup_setKey_self]; push_cast; ring_nf
      obtain ⟨ihmap, ihtake, ihresults⟩ :=
        ih (setKey s key ⟨(c : Int) + 1, rt⟩) (c + 1) hs' hcN hrest
      refine ⟨?_, ?_, ?_⟩
      · simp only [runIpRequests, hstep, List.map_cons, ihmap, List.length_cons,
          List.range_succ_eq_map, List.map_map]
        refine List.cons_eq_cons.2 ⟨(decide_eq_true (by omega : c + 0 < opts.maxRequests)).symm, ?_⟩
        refine List.map_congr_left fun i _ => ?_
        simp only [Function.comp_apply]
        exact decide_eq_decide.2 (by omega)
      · intro k hk
        match k with
        | 0 => simpa [runIpRequests, Nat.min_eq_left (Nat.le_of_lt hcN)] using hs
        | k + 1 =>
          have hk' : k ≤ rest.length := by simpa using hk
          have := ihtake k hk'
          simp only [List.take_succ_cons, runIpRequests, hstep]
          simpa [Nat.add_assoc, Nat.add_comm 1 k] using this
      · intro r hr
        simp only [runIpRequests, hstep, List.mem_cons] at hr
        rcases hr with hr | hr
        · subst hr
          exact ⟨fun h => by simp at h, fun _ => rfl⟩
        · exact ihresults r hr
    · -- the window is full: this request is denied and nothing changes
      have hcge : (opts.maxRequests : Int) ≤ (c : Int) := by
        exact_mod_cast Nat.le_of_not_lt hcN
      have hstep := rateLimiterRequest_denied opts s key t (c : Int) rt hs
        (Nat.le_of_lt htrt) hcge
      obtain ⟨ihmap, ihtake, ihresults⟩ := ih s c hs hc hrest
      refine ⟨?_, ?_, ?_⟩
      · simp only [runIpRequests, hstep, List.map_cons, ihmap, List.length_cons,
          List.range_succ_eq_map, List.map_map]
        refine List.cons_eq_cons.2
          ⟨(decide_eq_false (by omega : ¬(c + 0 < opts.maxRequests))).symm, ?_⟩
        refine List.map_congr_left fun i _ => ?_
        simp only [Function.comp_apply]
        exact decide_eq_decide.2 (by omega)
      · intro k hk
        match k with
        | 0 =>
          have : min c opts.maxRequests = c := Nat.min_eq_left hc
          simpa [runIpRequests, this] using hs
        | k + 1 =>
          have hk' : k ≤ rest.length := by simpa using hk
          have := ihtake k hk'
          simp only [List.take_succ_cons, runIpRequests, hstep]
          have hmin : min (c + k) opts.maxRequests = min (c + (k + 1)) opts.maxRequests := by
            omega
          rw [← hmin]
          exact this
      · intro r hr
        simp only [runIpRequests, hstep, List.mem_cons] at hr
        rcases hr with hr | hr
        · subst hr
          refine ⟨fun _ => ⟨rfl, ⟨jsCeilDiv ((rt : Int) - (t : Int)) 1000, rfl, ?_⟩⟩,
            fun h => by simp at h⟩
          exact jsCeilDiv_pos _ (by omega)
        · exact ihresults r hr

theorem rateLimiterRequest_first (opts : RateLimitOptions) (s : RLStore) (key : String)
    (now : Nat) (h : lookupKey s key = none) (hN : 1 ≤ opts.maxRequests) :
    rateLimiterRequest opts s key now =
      (setKey (setKey s key ⟨0, now + opts.windowMs⟩) key ⟨1, now + opts.windowMs⟩,
       ⟨true, none, none, some opts.maxRequests,
        some (max 0 ((opts.maxRequests : Int) - 1)), some (now + opts.windowMs)⟩) := by
  have hpos : ¬((0 : Int) ≥ (opts.maxRequests : Int)) := by
    simp only [ge_iff_le, not_le]
    exact_mod_cast hN
  simp [rateLimiterRequest, getOrInit_lookup_none s key now opts.windowMs h, hpos]

/-! ### Claim C1 -/

/-- Claim C1: window boundary correctness. For a policy with
`maxRequests = N ≥ 1` and window `W`, and a key with no live record, among
the requests for that key arriving at times in `[t0, t0 + W)` (the first at
`t0`, which starts the window), the first `N` are allowed — after the
`(k+1)`-th request the stored count is `min (k+1) N`, so each allowed request
has charged the window before `next()` runs — and every later request is
denied with status 429 and a positive `retryAfter`, without changing the
count. -/
theorem claim_C1_window_boundary (opts : RateLimitOptions) (key : String)
    (s : RLStore) (t0 : Nat) (ts : List Nat)
    (hN : 1 ≤ opts.maxRequests)
    (hs : lookupKey s key = none)
    (hts : ∀ t ∈ ts, t0 ≤ t ∧ t < t0 + opts.windowMs) :
    ((runIpRequests opts key s (t0 :: ts)).2.map (fun r => r.allowed)
        = (List.range (ts.length + 1)).map (fun i => decide (i < opts.maxRequests)))
    ∧ (∀ k, k ≤ ts.length →
        lookupKey (runIpRequests opts key s ((t0 :: ts).take (k + 1))).1 key
          = some ⟨((min (k + 1) opts.maxRequests : Nat) : Int), t0 + opts.windowMs⟩)
    ∧ (∀ r ∈ (runIpRequests opts key s (t0 :: ts)).2,
        (r.allowed = false → r.status = some 429 ∧ ∃ ra, r.retryAfter = some ra ∧ 0 < ra)
        ∧ (r.allowed = true → r.status = none)) := by
  have hstep := rateLimiterRequest_first opts s key t0 hs hN
  set s1 := setKey (setKey s key ⟨0, t0 + opts.windowMs⟩) key ⟨1, t0 + opts.windowMs⟩ with hs1
  have hlook : lookupKey s1 key = some ⟨((1 : Nat) : Int), t0 + opts.windowMs⟩ := by
    rw [hs1, lookup_setKey_self]
    norm_num
  obtain ⟨ihmap, ihtake, ihresults⟩ :=
    runIp_loop opts key (t0 + opts.windowMs) ts s1 1 hlook hN
      (fun t ht => (hts t ht).2)
  refine ⟨?_, ?_, ?_⟩
  · simp only [runIpRequests, hstep, List.map_cons, ihmap, List.length_cons,
      List.range_succ_eq_map, List.map_map]
    refine List.cons_eq_cons.2
      ⟨(decide_eq_true (by omega : 0 < opts.maxRequests)).symm, ?_⟩
    refine List.map_congr_left fun i _ => ?_
    simp only [Function.comp_apply]
    exact decide_eq_decide.2 (by omega)
  · intro k hk
    have := ihtake k hk
    simp only [List.take_succ_cons, runIpRequests, hstep]
    simpa [Nat.add_comm 1 k] using this
  · intro r hr
    simp only [runIpRequests, hstep, List.mem_cons] at hr
    rcases hr with hr | hr
    · subst hr
      exact ⟨fun h => by simp at h, fun _ => rfl⟩
    · exact ihresults r hr

/-- Closed instance of `claim_C1_window_boundary`: a 2-request policy with a
1000 ms window, four requests at times 0, 1, 2, 3. -/
theorem claim_C1_window_boundary_witness :
    (1 ≤ (⟨1000, 2, false⟩ : RateLimitOptions).maxRequests)
    ∧ (lookupKey [] "k" = none)
    ∧ (∀ t ∈ [1, 2, 3], 0 ≤ t ∧ t < 0 + (⟨1000, 2, false⟩ : RateLimitOptions).windowMs)
    ∧ (((runIpRequests ⟨1000, 2, false⟩ "k" [] (0 :: [1, 2, 3])).2.map (fun r => r.allowed)
          = (List.range ([1, 2, 3].length + 1)).map
              (fun i => decide (i < (⟨1000, 2, false⟩ : RateLimitOptions).maxRequests)))
      ∧ (∀ k, k ≤ [1, 2, 3].length →
          lookupKey (runIpRequests ⟨1000, 2, false⟩ "k" [] ((0 :: [1, 2, 3]).take (k + 1))).1 "k"
            = some ⟨((min (k + 1) (⟨1000, 2, false⟩ : RateLimitOptions).maxRequests : Nat) : Int),
                0 + (⟨1000, 2, false⟩ : RateLimitOptions).windowMs⟩)
      ∧ (∀ r ∈ (runIpRequests ⟨1000, 2, false⟩ "k" [] (0 :: [1, 2, 3])).2,
          (r.allowed = false → r.status = some 429 ∧ ∃ ra, r.retryAfter = some ra ∧ 0 < ra)
          ∧ (r.allowed = true → r.status = none))) :=
  ⟨by decide, by decide, by decide,
   claim_C1_window_boundary ⟨1000, 2, false⟩ "k" [] 0 [1, 2, 3]
     (by decide) (by decide) (by decide)⟩

/-! ### Claim C3 -/

/-- Claim C3 counterexample: a request arriving exactly when
`resetTime = now` (here both 100) keeps the old record (count 3) instead of
replacing it with a fresh one (`count = 0`, `resetTime = now + windowMs`):
the "window still active" test of the code is `resetTime ≥ now`, not a
strict greater-than. -/
theorem claim_C3_counterexample :
    getOrInit [("k", ⟨3, 100⟩)] "k" 100 60000 = ([("k", ⟨3, 100⟩)], ⟨3, 100⟩)
    ∧ (⟨3, 100⟩ : WindowRecord).count ≠ 0
    ∧ (⟨3, 100⟩ : WindowRecord).resetTime ≠ 100 + 60000 := by decide

/-- Claim C3 (amended): a request arriving exactly when `resetAt = now`
continues the old window; the record is replaced with a fresh one
(`count = 0`, `resetAt = now + windowDuration`) exactly when
`resetAt < now`, i.e. the "window still active" test is `resetAt ≥ now`. -/
theorem claim_C3_window_active_test (s : RLStore) (key : String) (now windowMs : Nat)
    (r : WindowRecord) (h : lookupKey s key = some r) :
    (now ≤ r.resetTime → getOrInit s key now windowMs = (s, r))
    ∧ (r.resetTime < now →
        getOrInit s key now windowMs
          = (setKey s key ⟨0, now + windowMs⟩, ⟨0, now + windowMs⟩)) :=
  ⟨fun hle => getOrInit_active s key now windowMs r h hle,
   fun hlt => getOrInit_expired s key now windowMs r h hlt⟩

/-- Closed instance of `claim_C3_window_active_test` at `now = resetTime`. -/
theorem claim_C3_window_active_test_witness :
    (lookupKey [("k", (⟨2, 50⟩ : WindowRecord))] "k" = some ⟨2, 50⟩)
    ∧ ((50 ≤ (⟨2, 50⟩ : WindowRecord).resetTime →
          getOrInit [("k", ⟨2, 50⟩)] "k" 50 10 = ([("k", ⟨2, 50⟩)], ⟨2, 50⟩))
       ∧ ((⟨2, 50⟩ : WindowRecord).resetTime < 50 →
          getOrInit [("k", ⟨2, 50⟩)] "k" 50 10
            = (setKey [("k", ⟨2, 50⟩)] "k" ⟨0, 50 + 10⟩, ⟨0, 50 + 10⟩))) :=
  ⟨by decide, claim_C3_window_active_test [("k", ⟨2, 50⟩)] "k" 50 10 ⟨2, 50⟩ (by decide)⟩

/-! ### Claim C6 -/

/-- Claim C6 counterexample: at sweep time `now = 100`, the record with
`resetTime = 100` (so `resetAt ≤ now`) is NOT removed — the cleanup deletes
only records with `resetTime < now`. -/
theorem claim_C6_counterexample :
    ("k", (⟨1, 100⟩ : WindowRecord)) ∈ sweepExpired [("k", ⟨1, 100⟩)] 100
    ∧ (⟨1, 100⟩ : WindowRecord).resetTime ≤ 100 := by decide

/-- Claim C6 (amended): a sweep at time `now` removes exactly the records
with `resetAt < now`: an entry survives iff it was present and has
`resetAt ≥ now`, surviving entries are unchanged, and the number of removed
entries is the number of entries with `resetAt < now` (the interval callback
itself returns no value). -/
theorem claim_C6_sweep (s : RLStore) (now : Nat) :
    (∀ kv : String × WindowRecord,
        kv ∈ sweepExpired s now ↔ kv ∈ s ∧ now ≤ kv.2.resetTime)
    ∧ s.length = (sweepExpired s now).length
        + s.countP (fun kv => decide (kv.2.resetTime < now)) := by
  constructor
  · intro kv
    simp [sweepExpired, List.mem_filter, Nat.not_lt]
  · unfold sweepExpired
    induction s with
    | nil => rfl
    | cons kv rest ih =>
      by_cases h : kv.2.resetTime < now <;>
        simp [List.countP_cons, List.filter_cons, h] <;> omega

/-! ### Claim C9 -/

/-- Claim C9: a request whose body has no `email` field bypasses the
email-keyed limiter entirely — `next()` is called, no status or header is
produced, and the store is returned untouched, both for the middleware alone
and for a whole guarded request. -/
theorem claim_C9_missing_email_bypass (opts : EmailRateLimitOptions) (s : RLStore)
    (now : Nat) (success : Bool) (statusCode : Nat) :
    emailRateLimiterRequest opts s none now = (s, nextOnly)
    ∧ emailGuardedRequest opts s none now success statusCode = (s, nextOnly)
    ∧ nextOnly.allowed = true ∧ nextOnly.status = none :=
  ⟨rfl, rfl, rfl, rfl⟩

/-! ### Claim C10 -/

/-- Claim C10: when neither `req.ip` nor `req.socket.remoteAddress` is
available, the limiting key is the constant `"unknown"`, so all such
requests share one quota bucket. -/
theorem claim_C10_unknown_key : ipKey none none = "unknown" := by decide

/-! ### Claim C5 -/

/-- Claim C5 counterexample: a request the email-keyed limiter allows to
proceed carries none of the `X-RateLimit-Limit` / `-Remaining` / `-Reset`
headers — that middleware never sets them. -/
theorem claim_C5_counterexample :
    ((emailRateLimiterRequest loginRateLimiterOpts [] (some "a@b.c") 0).2.allowed = true)
    ∧ ((emailRateLimiterRequest loginRateLimiterOpts [] (some "a@b.c") 0).2.limitHeader = none)
    ∧ ((emailRateLimiterRequest loginRateLimiterOpts [] (some "a@b.c") 0).2.remainingHeader = none)
    ∧ ((emailRateLimiterRequest loginRateLimiterOpts [] (some "a@b.c") 0).2.resetHeader = none) := by
  decide

/-- Claim C5 (amended): every request through an IP-keyed limiter — allowed
or denied — carries `X-RateLimit-Limit`, `X-RateLimit-Remaining` and
`X-RateLimit-Reset`; the email-keyed limiter never sets any of the three
(on denial it sets only `Retry-After`). -/
theorem claim_C5_rate_limit_headers (optsI : RateLimitOptions)
    (optsE : EmailRateLimitOptions) (s1 s2 : RLStore) (key : String)
    (emailField : Option String) (now1 now2 : Nat) :
    ((rateLimiterRequest optsI s1 key now1).2.limitHeader.isSome
      ∧ (rateLimiterRequest optsI s1 key now1).2.remainingHeader.isSome
      ∧ (rateLimiterRequest optsI s1 key now1).2.resetHeader.isSome)
    ∧ ((emailRateLimiterRequest optsE s2 emailField now2).2.limitHeader = none
      ∧ (emailRateLimiterRequest optsE s2 emailField now2).2.remainingHeader = none
      ∧ (emailRateLimiterRequest optsE s2 emailField now2).2.resetHeader = none) := by
  constructor
  · unfold rateLimiterRequest
    by_cases h : (getOrInit s1 key now1 optsI.windowMs).2.count ≥ (optsI.maxRequests : Int) <;>
      simp [h]
  · cases emailField with
    | none => exact ⟨rfl, rfl, rfl⟩
    | some email =>
      unfold emailRateLimiterRequest
      by_cases he : email = ""
      · simp [he, nextOnly]
      · by_cases hc : (getOrInit s2 (emailKey email) now2 optsE.windowMs).2.count
            ≥ (optsE.maxAttempts : Int) <;> simp [he, hc]

/-! ### Claim C2 -/

/-- Claim C2 counterexample: an allowed request through the email-keyed
(outcome-gated) limiter is NOT charged at evaluate time — the fresh record
still has `count = 0` after the middleware allows the request — and the
outcome observer itself applies the charge when the handler fails. -/
theorem claim_C2_counterexample :
    ((emailRateLimiterRequest loginRateLimiterOpts [] (some "a@b.c") 0).2.allowed = true)
    ∧ ((emailRateLimiterRequest loginRateLimiterOpts [] (some "a@b.c") 0).1
        = [("email:a@b.c", ⟨0, 900000⟩)])
    ∧ ((0 : Int) ≠ 0 + 1)
    ∧ (emailOutcomeObserve [("email:a@b.c", ⟨0, 900000⟩)] "email:a@b.c" false 401
        = [("email:a@b.c", ⟨1, 900000⟩)]) := by decide

/-- Claim C2 (amended): the email-keyed (outcome-gated) limiter applies NO
charge at evaluate time — the middleware writes nothing beyond the
`getOrInit` step, so an allowed request leaves the count unchanged — and the
outcome observer itself applies the charge after the handler completes:
it increments the count on a failed outcome (status 401 or 400 with
`success = false`) and resets it to 0 on a successful one. -/
theorem claim_C2_outcome_time_charging (opts : EmailRateLimitOptions) (s s2 : RLStore)
    (email : String) (now : Nat) (key : String) (c : Int) (rt : Nat)
    (success : Bool) (statusCode : Nat)
    (he : email ≠ "") (hk : lookupKey s2 key = some ⟨c, rt⟩) :
    ((emailRateLimiterRequest opts s (some email) now).1
        = (getOrInit s (emailKey email) now opts.windowMs).1)
    ∧ (success = false → (statusCode = 401 ∨ statusCode = 400) →
        emailOutcomeObserve s2 key success statusCode = setKey s2 key ⟨c + 1, rt⟩)
    ∧ (success = true → statusCode < 400 →
        emailOutcomeObserve s2 key success statusCode = setKey s2 key ⟨0, rt⟩) := by
  refine ⟨?_, ?_, ?_⟩
  · unfold emailRateLimiterRequest
    by_cases hc : (getOrInit s (emailKey email) now opts.windowMs).2.count
        ≥ (opts.maxAttempts : Int) <;> simp [he, hc]
  · intro hsucc hcode
    subst hsucc
    simp [emailOutcomeObserve, hk, hcode]
  · intro hsucc hcode
    subst hsucc
    simp [emailOutcomeObserve, hk, hcode]

/-- Closed instance of `claim_C2_outcome_time_charging`. -/
theorem claim_C2_outcome_time_charging_witness :
    ("e@x" ≠ "")
    ∧ (lookupKey [("email:e@x", (⟨2, 900⟩ : WindowRecord))] "email:e@x"
        = some ⟨2, 900⟩)
    ∧ (((emailRateLimiterRequest ⟨1000, 5⟩ [] (some "e@x") 0).1
          = (getOrInit [] (emailKey "e@x") 0 (⟨1000, 5⟩ : EmailRateLimitOptions).windowMs).1)
      ∧ (false = false → ((401 : Nat) = 401 ∨ (401 : Nat) = 400) →
          emailOutcomeObserve [("email:e@x", ⟨2, 900⟩)] "email:e@x" false 401
            = setKey [("email:e@x", ⟨2, 900⟩)] "email:e@x" ⟨2 + 1, 900⟩)
      ∧ (false = true → (401 : Nat) < 400 →
          emailOutcomeObserve [("email:e@x", ⟨2, 900⟩)] "email:e@x" false 401
            = setKey [("email:e@x", ⟨2, 900⟩)] "email:e@x" ⟨0, 900⟩)) :=
  ⟨by decide, by decide,
   claim_C2_outcome_time_charging ⟨1000, 5⟩ [] [("email:e@x", ⟨2, 900⟩)] "e@x" 0
     "email:e@x" 2 900 false 401 (by decide) (by decide)⟩

/-! ### Claim C4 -/

/-- Claim C4 counterexample: one request charged under the general limiter
(`rateLimiter`, 100/15min) changes what the heavy-operation limiter
(`apiRateLimiter`, 10/min) observes for the same key: starting from empty
stores, the api limiter now reads a record with count 1 for `1.2.3.4`
(remaining 8 after its own charge), while against an untouched store it
would read count 0. Both `createRateLimiter` instances close over the
single module-level `store`. -/
theorem claim_C4_counterexample :
    ((applyIpPolicy rateLimiterOpts ⟨[], []⟩ "1.2.3.4" 0).1.store
        = [("1.2.3.4", ⟨1, 900000⟩)])
    ∧ ((getOrInit (applyIpPolicy rateLimiterOpts ⟨[], []⟩ "1.2.3.4" 0).1.store
          "1.2.3.4" 0 apiRateLimiterOpts.windowMs).2.count = 1)
    ∧ ((applyIpPolicy apiRateLimiterOpts (applyIpPolicy rateLimiterOpts ⟨[], []⟩ "1.2.3.4" 0).1
          "1.2.3.4" 0).2.remainingHeader = some 8)
    ∧ ((getOrInit ([] : RLStore) "1.2.3.4" 0 apiRateLimiterOpts.windowMs).2.count = 0) := by
  decide

/-- Claim C4 (amended): the three IP-keyed policies all read and write one
shared store, so a request allowed (and charged) under one IP-keyed policy
increments the count any other IP-keyed policy observes for that key within
the live window; only the email-keyed limiter is isolated from them — an
IP-policy request never changes `emailStore` and an email-policy request
never changes `store`. -/
theorem claim_C4_store_sharing (optsI optsI2 : RateLimitOptions)
    (optsE : EmailRateLimitOptions) (m mI mE : ModuleState) (key keyI : String)
    (emailField : Option String) (now nowI nowE : Nat) (success : Bool)
    (statusCode : Nat)
    (hall : (applyIpPolicy optsI m key now).2.allowed = true) :
    ((applyIpPolicy optsI mI keyI nowI).1.emailStore = mI.emailStore)
    ∧ ((applyEmailPolicy optsE mE emailField nowE success statusCode).1.store = mE.store)
    ∧ ((getOrInit (applyIpPolicy optsI m key now).1.store key now optsI2.windowMs).2.count
        = (getOrInit m.store key now optsI.windowMs).2.count + 1) := by
  refine ⟨rfl, rfl, ?_⟩
  by_cases hc : (getOrInit m.store key now optsI.windowMs).2.count
      ≥ (optsI.maxRequests : Int)
  · exfalso
    simp [applyIpPolicy, rateLimiterRequest, hc] at hall
  · have hstore : (applyIpPolicy optsI m key now).1.store
        = setKey (getOrInit m.store key now optsI.windowMs).1 key
            ⟨(getOrInit m.store key now optsI.windowMs).2.count + 1,
             (getOrInit m.store key now optsI.windowMs).2.resetTime⟩ := by
      simp [applyIpPolicy, rateLimiterRequest, hc]
    have hrec := lookup_setKey_self (getOrInit m.store key now optsI.windowMs).1 key
      ⟨(getOrInit m.store key now optsI.windowMs).2.count + 1,
       (getOrInit m.store key now optsI.windowMs).2.resetTime⟩
    have hact : now ≤ ((⟨(getOrInit m.store key now optsI.windowMs).2.count + 1,
        (getOrInit m.store key now optsI.windowMs).2.resetTime⟩ : WindowRecord)).resetTime :=
      getOrInit_resetTime_ge m.store key now optsI.windowMs
    rw [hstore, getOrInit_active _ key now optsI2.windowMs _ hrec hact]

/-- Closed instance of `claim_C4_store_sharing`: from empty stores, a charge
under the general limiter makes the api limiter observe count 1 for the key. -/
theorem claim_C4_store_sharing_witness :
    ((applyIpPolicy rateLimiterOpts ⟨[], []⟩ "1.2.3.4" 0).2.allowed = true)
    ∧ (((applyIpPolicy rateLimiterOpts (⟨[("x", ⟨3, 7⟩)], [("e", ⟨4, 9⟩)]⟩ : ModuleState)
            "1.2.3.4" 0).1.emailStore = (⟨[("x", ⟨3, 7⟩)], [("e", ⟨4, 9⟩)]⟩ : ModuleState).emailStore)
      ∧ ((applyEmailPolicy loginRateLimiterOpts
            (⟨[("x", ⟨3, 7⟩)], [("e", ⟨4, 9⟩)]⟩ : ModuleState) (some "a@b") 1 false 401).1.store
          = (⟨[("x", ⟨3, 7⟩)], [("e", ⟨4, 9⟩)]⟩ : ModuleState).store)
      ∧ ((getOrInit (applyIpPolicy rateLimiterOpts ⟨[], []⟩ "1.2.3.4" 0).1.store
            "1.2.3.4" 0 apiRateLimiterOpts.windowMs).2.count
          = (getOrInit (⟨[], []⟩ : ModuleState).store "1.2.3.4" 0
              rateLimiterOpts.windowMs).2.count + 1)) :=
  ⟨by decide,
   claim_C4_store_sharing rateLimiterOpts apiRateLimiterOpts loginRateLimiterOpts
     ⟨[], []⟩ ⟨[("x", ⟨3, 7⟩)], [("e", ⟨4, 9⟩)]⟩ ⟨[("x", ⟨3, 7⟩)], [("e", ⟨4, 9⟩)]⟩
     "1.2.3.4" "1.2.3.4" (some "a@b") 0 0 1 false 401 (by decide)⟩

/-! ### Claim C8 -/

theorem lookup_mem (s : RLStore) (k : String) (r : WindowRecord)
    (h : lookupKey s k = some r) : (k, r) ∈ s := by
  induction s with
  | nil => simp [lookupKey] at h
  | cons kv rest ih =>
    obtain ⟨k0, r0⟩ := kv
    by_cases h0 : k0 = k
    · subst h0
      simp only [lookupKey, if_true, eq_self_iff_true, Option.some.injEq] at h
      subst h
      exact List.mem_cons_self _ _
    · simp only [lookupKey, if_neg h0] at h
      exact List.mem_cons_of_mem _ (ih h)

theorem storeNonneg_setKey (s : RLStore) (key : String) (r : WindowRecord)
    (hs : StoreNonneg s) (hr : 0 ≤ r.count) : StoreNonneg (setKey s key r) := by
  intro kv hkv
  rcases mem_setKey s key r kv hkv with h | h
  · rw [h]; exact hr
  · exact hs kv h

theorem storeNonneg_getOrInit (s : RLStore) (key : String) (now windowMs : Nat)
    (hs : StoreNonneg s) :
    StoreNonneg (getOrInit s key now windowMs).1
    ∧ 0 ≤ (getOrInit s key now windowMs).2.count := by
  cases h : lookupKey s key with
  | none =>
    rw [getOrInit_lookup_none s key now windowMs h]
    exact ⟨storeNonneg_setKey s key _ hs (by norm_num), by norm_num⟩
  | some r =>
    by_cases hr : r.resetTime < now
    · rw [getOrInit_expired s key now windowMs r h hr]
      exact ⟨storeNonneg_setKey s key _ hs (by norm_num), by norm_num⟩
    · rw [getOrInit_active s key now windowMs r h (Nat.le_of_not_lt hr)]
      exact ⟨hs, hs (key, r) (lookup_mem s key r h)⟩

/-- Claim C8: every operation on a store — the initialize-or-reuse step, a
request through the IP-keyed limiter, the `finish` refund hook, a request
through the email-keyed limiter, the outcome observer's increment/reset, and
the periodic sweep — preserves the invariant that every record has
`count ≥ 0` (and the record `getOrInit` returns is itself non-negative). -/
theorem claim_C8_count_nonneg (opts : RateLimitOptions) (optsE : EmailRateLimitOptions)
    (s : RLStore) (key : String) (now windowMs statusCode : Nat)
    (emailField : Option String) (success : Bool)
    (hs : StoreNonneg s) :
    StoreNonneg (getOrInit s key now windowMs).1
    ∧ 0 ≤ (getOrInit s key now windowMs).2.count
    ∧ StoreNonneg (rateLimiterRequest opts s key now).1
    ∧ StoreNonneg (finishHook opts s key statusCode)
    ∧ StoreNonneg (emailRateLimiterRequest optsE s emailField now).1
    ∧ StoreNonneg (emailOutcomeObserve s key success statusCode)
    ∧ StoreNonneg (sweepExpired s now) := by
  obtain ⟨hinit, hinitrec⟩ := storeNonneg_getOrInit s key now windowMs hs
  refine ⟨hinit, hinitrec, ?_, ?_, ?_, ?_, ?_⟩
  · unfold rateLimiterRequest
    obtain ⟨hinit1, hinitrec1⟩ := storeNonneg_getOrInit s key now opts.windowMs hs
    by_cases hc : (getOrInit s key now opts.windowMs).2.count ≥ (opts.maxRequests : Int)
    · simpa [hc] using hinit1
    · simpa [hc] using
        storeNonneg_setKey _ key _ hinit1 (by simpa using Int.le_add_one hinitrec1)
  · unfold finishHook
    by_cases hskip : opts.skipSuccessfulRequests
    · by_cases hcode : statusCode < 400
      · cases h : lookupKey s key with
        | none => simpa [hskip, hcode, h] using hs
        | some r =>
          simpa [hskip, hcode, h] using
            storeNonneg_setKey s key _ hs (le_max_left 0 (r.count - 1))
      · simpa [hskip, hcode] using hs
    · simpa [hskip] using hs
  · cases emailField with
    | none => exact hs
    | some email =>
      unfold emailRateLimiterRequest
      by_cases he : email = ""
      · simpa [he] using hs
      · obtain ⟨hinit2, _⟩ := storeNonneg_getOrInit s (emailKey email) now optsE.windowMs hs
        by_cases hc : (getOrInit s (emailKey email) now optsE.windowMs).2.count
            ≥ (optsE.maxAttempts : Int) <;> simpa [he, hc] using hinit2
  · unfold emailOutcomeObserve
    cases h : lookupKey s key with
    | none => exact hs
    | some r =>
      have hrc : 0 ≤ r.count := hs (key, r) (lookup_mem s key r h)
      by_cases h1 : success = false ∧ (statusCode = 401 ∨ statusCode = 400)
      · simpa [h1] using
          storeNonneg_setKey s key _ hs (by simpa using Int.le_add_one hrc)
      · by_cases h2 : success = true ∧ statusCode < 400
        · simpa [h1, h2] using storeNonneg_setKey s key _ hs (by norm_num)
        · simpa [h1, h2] using hs
  · intro kv hkv
    exact hs kv (List.mem_of_mem_filter hkv)

/-- Closed instance of `claim_C8_count_nonneg` on a one-record store. -/
theorem claim_C8_count_nonneg_witness :
    StoreNonneg [("k", (⟨0, 50⟩ : WindowRecord))]
    ∧ (StoreNonneg (getOrInit [("k", ⟨0, 50⟩)] "k" 60 40).1
      ∧ 0 ≤ (getOrInit [("k", ⟨0, 50⟩)] "k" 60 40).2.count
      ∧ StoreNonneg (rateLimiterRequest strictRateLimiterOpts [("k", ⟨0, 50⟩)] "k" 60).1
      ∧ StoreNonneg (finishHook strictRateLimiterOpts [("k", ⟨0, 50⟩)] "k" 401)
      ∧ StoreNonneg (emailRateLimiterRequest loginRateLimiterOpts [("k", ⟨0, 50⟩)]
          (some "a@b") 60).1
      ∧ StoreNonneg (emailOutcomeObserve [("k", ⟨0, 50⟩)] "k" false 401)
      ∧ StoreNonneg (sweepExpired [("k", ⟨0, 50⟩)] 60)) :=
  ⟨by decide,
   claim_C8_count_nonneg strictRateLimiterOpts loginRateLimiterOpts
     [("k", ⟨0, 50⟩)] "k" 60 40 401 (some "a@b") false (by decide)⟩

/-! ### Step lemmas for the email-keyed limiter -/

theorem emailGuarded_denied (opts : EmailRateLimitOptions) (s : RLStore) (email : String)
    (now : Nat) (success : Bool) (statusCode : Nat) (c : Int) (rt : Nat)
    (he : email ≠ "") (hk : lookupKey s (emailKey email) = some ⟨c, rt⟩)
    (hactive : now ≤ rt) (hc : (opts.maxAttempts : Int) ≤ c) :
    emailGuardedRequest opts s (some email) now success statusCode
      = (s, ⟨false, some 429, some (jsCeilDiv ((rt : Int) - (now : Int)) 1000),
             none, none, none⟩) := by
  simp [emailGuardedRequest, emailRateLimiterRequest, he,
    getOrInit_active s (emailKey email) now opts.windowMs ⟨c, rt⟩ hk hactive, hc]

theorem emailGuarded_failed (opts : EmailRateLimitOptions) (s : RLStore) (email : String)
    (now : Nat) (statusCode : Nat) (c : Int) (rt : Nat)
    (he : email ≠ "") (hk : lookupKey s (emailKey email) = some ⟨c, rt⟩)
    (hactive : now ≤ rt) (hc : c < (opts.maxAttempts : Int))
    (hcode : statusCode = 401 ∨ statusCode = 400) :
    emailGuardedRequest opts s (some email) now false statusCode
      = (setKey s (emailKey email) ⟨c + 1, rt⟩, nextOnly) := by
  simp [emailGuardedRequest, emailRateLimiterRequest, he,
    getOrInit_active s (emailKey email) now opts.windowMs ⟨c, rt⟩ hk hactive,
    not_le.2 hc, emailOutcomeObserve, hk, hcode, nextOnly]

theorem emailGuarded_success (opts : EmailRateLimitOptions) (s : RLStore) (email : String)
    (now : Nat) (statusCode : Nat) (c : Int) (rt : Nat)
    (he : email ≠ "") (hk : lookupKey s (emailKey email) = some ⟨c, rt⟩)
    (hactive : now ≤ rt) (hc : c < (opts.maxAttempts : Int))
    (hcode : statusCode < 400) :
    emailGuardedRequest opts s (some email) now true statusCode
      = (setKey s (emailKey email) ⟨0, rt⟩, nextOnly) := by
  simp [emailGuardedRequest, emailRateLimiterRequest, he,
    getOrInit_active s (emailKey email) now opts.windowMs ⟨c, rt⟩ hk hactive,
    not_le.2 hc, emailOutcomeObserve, hk, hcode, nextOnly]

/-- A run of failed login attempts (status 401, `success = false`) while the
window is active and quota remains: every attempt is allowed and each one
raises the stored count by one. -/
theorem runEmail_failures (opts : EmailRateLimitOptions) (email : String) (rt : Nat)
    (he : email ≠ "") (ts : List Nat) :
    ∀ (s : RLStore) (c : Nat),
      lookupKey s (emailKey email) = some ⟨(c : Int), rt⟩ →
      (∀ t ∈ ts, t ≤ rt) →
      c + ts.length ≤ opts.maxAttempts →
      ((runEmailAttempts opts email s (ts.map (fun t => (t, false, 401)))).2
          = List.replicate ts.length true)
      ∧ (lookupKey (runEmailAttempts opts email s (ts.map (fun t => (t, false, 401)))).1
          (emailKey email) = some ⟨((c + ts.length : Nat) : Int), rt⟩) := by
  induction ts with
  | nil =>
    intro s c hk _ _
    exact ⟨rfl, by simpa using hk⟩
  | cons t rest ih =>
    intro s c hk hts hcap
    have hc : (c : Int) < (opts.maxAttempts : Int) := by
      have hcap' : c + (rest.length + 1) ≤ opts.maxAttempts := by
        rw [List.length_cons] at hcap
        exact hcap
      have : c < opts.maxAttempts := by omega
      exact_mod_cast this
    have hstep := emailGuarded_failed opts s email t 401 (c : Int) rt he hk
      (hts t (List.mem_cons_self _ _)) hc (Or.inl rfl)
    have hk' : lookupKey (setKey s (emailKey email) ⟨(c : Int) + 1, rt⟩) (emailKey email)
        = some ⟨((c + 1 : Nat) : Int), rt⟩ := by
      rw [lookup_setKey_self]; push_cast; ring_nf
    obtain ⟨ihtrace, ihcount⟩ := ih (setKey s (emailKey email) ⟨(c : Int) + 1, rt⟩) (c + 1)
      hk' (fun u hu => hts u (List.mem_cons_of_mem _ hu))
      (by rw [List.length_cons] at hcap; omega)
    constructor
    · simp only [List.map_cons, runEmailAttempts, hstep, ihtrace, List.length_cons,
        List.replicate_succ, nextOnly]
    · simp only [List.map_cons, runEmailAttempts, hstep]
      rw [ihcount]
      congr 2
      simp only [List.length_cons]
      omega

/-! ### Claim C7 -/

/-- Claim C7: outcome-gated reversal for the email-keyed login limiter with
`maxAttempts = M ≥ 1`. (A) Starting from a fresh in-window record, `M`
failed attempts (`success = false`, status 401) are all allowed and leave
the count at `M`, and the next in-window request for that email is then
denied with 429 — the store unchanged and the handler outcome irrelevant.
(B) A successful attempt made while quota remains resets the count to 0.
(C) From a reset record, a failed attempt is allowed and stored as attempt 1
of the fresh cycle. -/
theorem claim_C7_outcome_gated_reversal (opts : EmailRateLimitOptions) (email : String)
    (M : Nat) (ts : List Nat) (s1 s2 s3 : RLStore)
    (rt1 rt2 rt3 : Nat) (c2 : Nat)
    (tdeny now2 now3 : Nat) (succD : Bool) (codeD code2 : Nat)
    (he : email ≠ "") (hM : opts.maxAttempts = M) (hM1 : 1 ≤ M)
    (hk1 : lookupKey s1 (emailKey email) = some ⟨0, rt1⟩)
    (hts : ∀ t ∈ ts, t ≤ rt1) (hlen : ts.length = M)
    (htdeny : tdeny ≤ rt1)
    (hk2 : lookupKey s2 (emailKey email) = some ⟨(c2 : Int), rt2⟩)
    (hc2 : c2 < M) (hnow2 : now2 ≤ rt2) (hcode2 : code2 < 400)
    (hk3 : lookupKey s3 (emailKey email) = some ⟨0, rt3⟩)
    (hnow3 : now3 ≤ rt3) :
    ((runEmailAttempts opts email s1 (ts.map (fun t => (t, false, 401)))).2
        = List.replicate M true)
    ∧ (lookupKey (runEmailAttempts opts email s1 (ts.map (fun t => (t, false, 401)))).1
        (emailKey email) = some ⟨(M : Int), rt1⟩)
    ∧ (emailGuardedRequest opts
         (runEmailAttempts opts email s1 (ts.map (fun t => (t, false, 401)))).1
         (some email) tdeny succD codeD
        = ((runEmailAttempts opts email s1 (ts.map (fun t => (t, false, 401)))).1,
           ⟨false, some 429, some (jsCeilDiv ((rt1 : Int) - (tdeny : Int)) 1000),
            none, none, none⟩))
    ∧ (emailGuardedRequest opts s2 (some email) now2 true code2
        = (setKey s2 (emailKey email) ⟨0, rt2⟩, nextOnly))
    ∧ (emailGuardedRequest opts s3 (some email) now3 false 401
        = (setKey s3 (emailKey email) ⟨1, rt3⟩, nextOnly)) := by
  have hk1' : lookupKey s1 (emailKey email) = some ⟨((0 : Nat) : Int), rt1⟩ := by
    simpa using hk1
  obtain ⟨htrace, hcount⟩ := runEmail_failures opts email rt1 he ts s1 0 hk1' hts
    (by omega)
  have hcount' : lookupKey
      (runEmailAttempts opts email s1 (ts.map (fun t => (t, false, 401)))).1
      (emailKey email) = some ⟨(M : Int), rt1⟩ := by
    rw [hcount]
    congr 2
    omega
  refine ⟨by rw [htrace, hlen], hcount', ?_, ?_, ?_⟩
  · exact emailGuarded_denied opts _ email tdeny succD codeD (M : Int) rt1 he hcount'
      htdeny (by exact_mod_cast Nat.le_of_eq hM)
  · exact emailGuarded_success opts s2 email now2 code2 (c2 : Int) rt2 he hk2 hnow2
      (by rw [hM]; exact_mod_cast hc2) hcode2
  · have := emailGuarded_failed opts s3 email now3 401 0 rt3 he hk3 hnow3
      (by rw [hM]; exact_mod_cast hM1) (Or.inl rfl)
    simpa using this

/-- Closed instance of `claim_C7_outcome_gated_reversal`: `maxAttempts = 2`,
two failed attempts at times 1 and 2, denial at time 3, a reset from count 1
at time 4, and a fresh first failure at time 5. -/
theorem claim_C7_outcome_gated_reversal_witness :
    ("e@x" ≠ "")
    ∧ ((⟨1000, 2⟩ : EmailRateLimitOptions).maxAttempts = 2)
    ∧ ((1 : Nat) ≤ 2)
    ∧ (lookupKey [("email:e@x", (⟨0, 1000⟩ : WindowRecord))] (emailKey "e@x")
        = some ⟨0, 1000⟩)
    ∧ (∀ t ∈ [1, 2], t ≤ 1000)
    ∧ ([1, 2].length = 2)
    ∧ ((3 : Nat) ≤ 1000)
    ∧ (lookupKey [("email:e@x", (⟨1, 1000⟩ : WindowRecord))] (emailKey "e@x")
        = some ⟨((1 : Nat) : Int), 1000⟩)
    ∧ ((1 : Nat) < 2)
    ∧ ((4 : Nat) ≤ 1000)
    ∧ ((200 : Nat) < 400)
    ∧ ((5 : Nat) ≤ 1000)
    ∧ (((runEmailAttempts ⟨1000, 2⟩ "e@x" [("email:e@x", ⟨0, 1000⟩)]
            ([1, 2].map (fun t => (t, false, 401)))).2 = List.replicate 2 true)
      ∧ (lookupKey (runEmailAttempts ⟨1000, 2⟩ "e@x" [("email:e@x", ⟨0, 1000⟩)]
            ([1, 2].map (fun t => (t, false, 401)))).1 (emailKey "e@x")
          = some ⟨((2 : Nat) : Int), 1000⟩)
      ∧ (emailGuardedRequest ⟨1000, 2⟩
           (runEmailAttempts ⟨1000, 2⟩ "e@x" [("email:e@x", ⟨0, 1000⟩)]
             ([1, 2].map (fun t => (t, false, 401)))).1 (some "e@x") 3 false 401
          = ((runEmailAttempts ⟨1000, 2⟩ "e@x" [("email:e@x", ⟨0, 1000⟩)]
               ([1, 2].map (fun t => (t, false, 401)))).1,
             ⟨false, some 429,
              some (jsCeilDiv (((1000 : Nat) : Int) - ((3 : Nat) : Int)) 1000),
              none, none, none⟩))
      ∧ (emailGuardedRequest ⟨1000, 2⟩ [("email:e@x", ⟨1, 1000⟩)] (some "e@x") 4 true 200
          = (setKey [("email:e@x", ⟨1, 1000⟩)] (emailKey "e@x") ⟨0, 1000⟩, nextOnly))
      ∧ (emailGuardedRequest ⟨1000, 2⟩ [("email:e@x", ⟨0, 1000⟩)] (some "e@x") 5 false 401
          = (setKey [("email:e@x", ⟨0, 1000⟩)] (emailKey "e@x") ⟨1, 1000⟩, nextOnly))) :=
  ⟨by decide, by decide, by decide, by decide, by decide, by decide, by decide,
   by decide, by decide, by decide, by decide, by decide,
   claim_C7_outcome_gated_reversal ⟨1000, 2⟩ "e@x" 2 [1, 2]
     [("email:e@x", ⟨0, 1000⟩)] [("email:e@x", ⟨1, 1000⟩)] [("email:e@x", ⟨0, 1000⟩)]
     1000 1000 1000 1 3 4 5 false 401 200
     (by decide) (by decide) (by decide) (by decide) (by decide) (by decide)
     (by decide) (by decide) (by decide) (by decide) (by decide) (by decide)
     (by decide)⟩

example : ipKey (some "") (some "1.2.3.4") = "1.2.3.4" := by decide
example :
    rateLimiterRequest ⟨1000, 1, false⟩ [] "k" 5 =
      ([("k", ⟨1, 1005⟩)],
       ⟨true, none, none, some 1, some 0, some 1005⟩) := by decide
example :
    rateLimiterRequest ⟨1000, 1, false⟩ [("k", ⟨1, 1005⟩)] "k" 7 =
      ([("k", ⟨1, 1005⟩)],
       ⟨false, some 429, some 1, some 1, some 0, some 1005⟩) := by decide
example : sweepExpired [("a", ⟨1, 3⟩), ("b", ⟨2, 9⟩)] 5 = [("b", ⟨2, 9⟩)] := by decide
example : emailKey "A@B.c" = "email:a@b.c" := by decide
example :
    emailGuardedRequest ⟨1000, 2⟩ [] (some "E@x") 3 false 401 =
      ([("email:e@x", ⟨1, 1003⟩)], nextOnly) := by decide
example :
    emailGuardedRequest ⟨1000, 2⟩ [("email:e@x", ⟨1, 1003⟩)] (some "e@x") 4 true 200 =
      ([("email:e@x", ⟨0, 1003⟩)], nextOnly) := by decide
example :
    (emailGuardedRequest ⟨1000, 2⟩ [("email:e@x", ⟨2, 1003⟩)] (some "e@x") 4 false 401).1 =
      [("email:e@x", ⟨2, 1003⟩)] := by decide
